import Mathlib

/-!
Verification of the ign-math spherical-coordinates engine specification.

The repository slice contains the engine's test suite
(`src/SphericalCoordinates_TEST.cc`) and the generic numeric helpers
(`include/ignition/math/Helpers.hh`).  The engine implementation itself
(`SphericalCoordinates.cc`/`.hh`) is not part of the slice, so the engine is
modelled from the specification (frame tags, reference configuration,
transform dispatcher with its identity-fallback policy, heading rotation,
WGS84 forward equations, ECEF/tangent-plane rotation), with the sign
convention of the heading rotation locked from the reference test vector as
the specification's design notes instruct.  The helper functions
(`parseInt`, `mean`, `variance`) are translated directly from
`Helpers.hh`.
-/

namespace IgnMath

/-- A 3-component real vector, the engine's position/velocity carrier
(`ignition::math::Vector3d`). -/
structure Vector3 where
  x : ℝ
  y : ℝ
  z : ℝ

/-- Modelled from the spec: `SurfaceType` is "an opaque labeled integer
identifying the ellipsoid/body model" that "is not validated on assignment:
any integer value may be stored".  We model it as the integer carrier of the
C++ enum. -/
abbrev SurfaceType := Int

/-- Modelled from the spec: the one defined surface value.  The concrete
numeral is irrelevant to every claim; `1` matches the usual enum layout. -/
def EARTH_WGS84 : SurfaceType := 1

/-- Modelled from the spec: `CoordinateType` is the enumeration of the four
frames, but the tests cast arbitrary out-of-range integers to it, so the
model is the integer carrier of the C++ enum. -/
abbrev CoordinateType := Int

/-- Modelled from the spec: the geodetic latitude/longitude/elevation frame
tag. -/
def SPHERICAL : CoordinateType := 1

/-- Modelled from the spec: the Earth-Centered-Earth-Fixed frame tag. -/
def ECEF : CoordinateType := 2

/-- Modelled from the spec: the East-North-Up tangent-plane frame tag. -/
def GLOBAL : CoordinateType := 3

/-- Modelled from the spec: the heading-rotated vehicle frame tag. -/
def LOCAL : CoordinateType := 4

/-- A tag is one of the four known frames of the specification. -/
def isFrame (c : CoordinateType) : Prop :=
  c = SPHERICAL ∨ c = ECEF ∨ c = GLOBAL ∨ c = LOCAL

instance (c : CoordinateType) : Decidable (isFrame c) := by
  unfold isFrame
  infer_instance

/-- Modelled from the spec: the engine's persistent reference configuration
(surface tag, geodetic origin, reference elevation, heading offset).  The
angle collaborator is reduced to its radian value. -/
structure SphericalCoordinates where
  surfaceType : SurfaceType
  latitudeReference : ℝ
  longitudeReference : ℝ
  elevationReference : ℝ
  headingOffset : ℝ

/-- Modelled from the spec: the default configuration (surface
`EARTH_WGS84`, zero origin, zero elevation, zero heading). -/
def defaultSC : SphericalCoordinates :=
  { surfaceType := EARTH_WGS84
    latitudeReference := 0
    longitudeReference := 0
    elevationReference := 0
    headingOffset := 0 }

/-- Modelled from the spec: `SetSurface` overwrites exactly the surface
field and performs no validation or range clamping. -/
def SetSurface (sc : SphericalCoordinates) (s : SurfaceType) :
    SphericalCoordinates :=
  { sc with surfaceType := s }

/-- Modelled from the spec: `Surface()` returns the stored value
unchanged. -/
def Surface (sc : SphericalCoordinates) : SurfaceType :=
  sc.surfaceType

/-- Modelled from the spec: `Convert(name)` "returns `EARTH_WGS84` for the
exact label `"EARTH_WGS84"` and for any unrecognized label — the function
never fails, defaulting silently". -/
def Convert (name : String) : SurfaceType :=
  if name = "EARTH_WGS84" then EARTH_WGS84 else EARTH_WGS84

/-- Modelled from the spec: WGS84 semi-major axis in meters. -/
noncomputable def wgs84A : ℝ := 6378137

/-- Modelled from the spec: WGS84 flattening. -/
noncomputable def wgs84F : ℝ := 1 / 298.257223563

/-- First eccentricity squared of the WGS84 ellipsoid, derived from the
flattening as in the standard ellipsoid equations. -/
noncomputable def wgs84E2 : ℝ := wgs84F * (2 - wgs84F)

/-- Modelled from the spec: the heading rotation taking LOCAL components to
GLOBAL East-North-Up components.  The sign convention is locked from the
reference test vector, as the spec's design notes instruct: a heading
offset of pi/2 maps local +X to global North and local +Y to global
negative East, hence east = cos h * x - sin h * y and
north = sin h * x + cos h * y, with the vertical unchanged. -/
noncomputable def globalFromLocalRot (h : ℝ) (v : Vector3) : Vector3 :=
  ⟨Real.cos h * v.x - Real.sin h * v.y,
   Real.sin h * v.x + Real.cos h * v.y,
   v.z⟩

/-- Modelled from the spec: the inverse heading rotation (transposed or
negated-angle rotation) taking GLOBAL East-North-Up components back to
LOCAL components. -/
noncomputable def localFromGlobalRot (h : ℝ) (v : Vector3) : Vector3 :=
  ⟨Real.cos h * v.x + Real.sin h * v.y,
   -(Real.sin h) * v.x + Real.cos h * v.y,
   v.z⟩

/-- Modelled from the spec: the forward WGS84 geodetic-to-ECEF conversion.
A SPHERICAL vector carries (latitude, longitude, elevation) with the angles
in radians; the prime-vertical radius of curvature is
N(lat) = a / sqrt(1 - e2 * sin(lat)^2). -/
noncomputable def ecefFromSpherical (v : Vector3) : Vector3 :=
  let n := wgs84A / Real.sqrt (1 - wgs84E2 * Real.sin v.x ^ 2)
  ⟨(n + v.z) * Real.cos v.x * Real.cos v.y,
   (n + v.z) * Real.cos v.x * Real.sin v.y,
   (n * (1 - wgs84E2) + v.z) * Real.sin v.x⟩

/-- Two-argument arctangent, used by the geodetic inversion; standard
quadrant-correcting definition. -/
noncomputable def atan2 (y x : ℝ) : ℝ :=
  if 0 < x then Real.arctan (y / x)
  else if x < 0 ∧ 0 ≤ y then Real.arctan (y / x) + Real.pi
  else if x < 0 ∧ y < 0 then Real.arctan (y / x) - Real.pi
  else if x = 0 ∧ 0 < y then Real.pi / 2
  else if x = 0 ∧ y < 0 then -(Real.pi / 2)
  else 0

/-- Modelled from the spec: the ECEF-to-geodetic inversion.  The spec leaves
the algorithm open ("an iterative or closed-form inversion (e.g.,
Bowring/Vermeille-style)"); this model uses the closed-form Bowring first
approximation as a representative instance.  No claim settled below depends
on the numeric values this leg produces. -/
noncomputable def sphericalFromECEF (v : Vector3) : Vector3 :=
  let b := wgs84A * (1 - wgs84F)
  let ep2 := wgs84E2 / (1 - wgs84E2)
  let p := Real.sqrt (v.x * v.x + v.y * v.y)
  let th := atan2 (wgs84A * v.z) (b * p)
  let lon := atan2 v.y v.x
  let lat := atan2 (v.z + ep2 * b * Real.sin th ^ 3)
                   (p - wgs84E2 * wgs84A * Real.cos th ^ 3)
  let n := wgs84A / Real.sqrt (1 - wgs84E2 * Real.sin lat ^ 2)
  ⟨lat, lon, p / Real.cos lat - n⟩

/-- The ECEF position of the configured reference origin, obtained by
running the forward conversion on the reference geodetic point, as in the
spec. -/
noncomputable def ecefOrigin (sc : SphericalCoordinates) : Vector3 :=
  ecefFromSpherical
    ⟨sc.latitudeReference, sc.longitudeReference, sc.elevationReference⟩

/-- Modelled from the spec: the standard 3x3 rotation taking ECEF axis
components to local East/North/Up components at the reference point
(rotation-only; used directly for velocities). -/
noncomputable def enuRotation (sc : SphericalCoordinates) (v : Vector3) :
    Vector3 :=
  let sLat := Real.sin sc.latitudeReference
  let cLat := Real.cos sc.latitudeReference
  let sLon := Real.sin sc.longitudeReference
  let cLon := Real.cos sc.longitudeReference
  ⟨-sLon * v.x + cLon * v.y,
   -sLat * cLon * v.x - sLat * sLon * v.y + cLat * v.z,
   cLat * cLon * v.x + cLat * sLon * v.y + sLat * v.z⟩

/-- Modelled from the spec: the transposed (inverse) East/North/Up
rotation, taking local tangent-plane components back to ECEF axis
components. -/
noncomputable def enuRotationInv (sc : SphericalCoordinates) (v : Vector3) :
    Vector3 :=
  let sLat := Real.sin sc.latitudeReference
  let cLat := Real.cos sc.latitudeReference
  let sLon := Real.sin sc.longitudeReference
  let cLon := Real.cos sc.longitudeReference
  ⟨-sLon * v.x - sLat * cLon * v.y + cLat * cLon * v.z,
   cLon * v.x - sLat * sLon * v.y + cLat * sLon * v.z,
   cLat * v.y + sLat * v.z⟩

/-- Modelled from the spec: position transform from ECEF,
`global = R(latRef, lonRef) * (ecef - ecefOrigin)`. -/
noncomputable def globalFromECEF (sc : SphericalCoordinates) (v : Vector3) :
    Vector3 :=
  let o := ecefOrigin sc
  enuRotation sc ⟨v.x - o.x, v.y - o.y, v.z - o.z⟩

/-- Modelled from the spec: position transform to ECEF,
`ecef = ecefOrigin + Rinv * global`. -/
noncomputable def ecefFromGlobal (sc : SphericalCoordinates) (v : Vector3) :
    Vector3 :=
  let o := ecefOrigin sc
  let r := enuRotationInv sc v
  ⟨o.x + r.x, o.y + r.y, o.z + r.z⟩

/-- Modelled from the spec: the position legs into the ECEF pivot frame.
GLOBAL and LOCAL share the tangent-plane origin, so the LOCAL leg is the
heading rotation followed by the GLOBAL leg. -/
noncomputable def posToECEF (sc : SphericalCoordinates) (v : Vector3)
    (f : CoordinateType) : Vector3 :=
  if f = SPHERICAL then ecefFromSpherical v
  else if f = GLOBAL then ecefFromGlobal sc v
  else if f = LOCAL then
    ecefFromGlobal sc (globalFromLocalRot sc.headingOffset v)
  else v

/-- Modelled from the spec: the position legs out of the ECEF pivot
frame. -/
noncomputable def posFromECEF (sc : SphericalCoordinates) (v : Vector3)
    (t : CoordinateType) : Vector3 :=
  if t = SPHERICAL then sphericalFromECEF v
  else if t = GLOBAL then globalFromECEF sc v
  else if t = LOCAL then
    localFromGlobalRot sc.headingOffset (globalFromECEF sc v)
  else v

/-- Whether a (from, to) pair has a defined position conversion: for
positions the spec supports the full composition across all four frames, so
the pair is defined exactly when both tags are known frames. -/
def PosPairDefined (f t : CoordinateType) : Prop :=
  isFrame f ∧ isFrame t

instance (f t : CoordinateType) : Decidable (PosPairDefined f t) := by
  unfold PosPairDefined
  infer_instance

/-- Modelled from the spec: the position transform dispatcher.  Identity
when `from = to` for any tag; the defined pairs are routed through the ECEF
pivot; everything else falls back to the input unchanged. -/
noncomputable def PositionTransform (sc : SphericalCoordinates)
    (v : Vector3) (f t : CoordinateType) : Vector3 :=
  if f = t then v
  else if PosPairDefined f t then posFromECEF sc (posToECEF sc v f) t
  else v

/-- Modelled from the spec: the velocity legs into the GLOBAL pivot frame
(rotation only, no translation). -/
noncomputable def velToGlobal (sc : SphericalCoordinates) (v : Vector3)
    (f : CoordinateType) : Vector3 :=
  if f = ECEF then enuRotation sc v
  else if f = LOCAL then globalFromLocalRot sc.headingOffset v
  else v

/-- Modelled from the spec: the velocity legs out of the GLOBAL pivot frame
(rotation only, no translation). -/
noncomputable def velFromGlobal (sc : SphericalCoordinates) (v : Vector3)
    (t : CoordinateType) : Vector3 :=
  if t = ECEF then enuRotationInv sc v
  else if t = LOCAL then localFromGlobalRot sc.headingOffset v
  else v

/-- Whether a (from, to) pair has a defined velocity conversion: SPHERICAL
is not a valid velocity endpoint, so the pair is defined exactly when both
tags are known frames and neither is SPHERICAL. -/
def VelPairDefined (f t : CoordinateType) : Prop :=
  isFrame f ∧ isFrame t ∧ f ≠ SPHERICAL ∧ t ≠ SPHERICAL

instance (f t : CoordinateType) : Decidable (VelPairDefined f t) := by
  unfold VelPairDefined
  infer_instance

/-- Modelled from the spec: the velocity transform dispatcher.  Identity
when `from = to`; any transform naming SPHERICAL as an endpoint returns the
input unchanged; the defined pairs are routed through the GLOBAL pivot
rotation-only; everything else falls back to the input unchanged. -/
noncomputable def VelocityTransform (sc : SphericalCoordinates)
    (v : Vector3) (f t : CoordinateType) : Vector3 :=
  if f = t then v
  else if f = SPHERICAL ∨ t = SPHERICAL then v
  else if VelPairDefined f t then velFromGlobal sc (velToGlobal sc v f) t
  else v

/-- Modelled from the spec: convenience conversion, a velocity transform
from LOCAL to GLOBAL. -/
noncomputable def GlobalFromLocalVelocity (sc : SphericalCoordinates)
    (v : Vector3) : Vector3 :=
  VelocityTransform sc v LOCAL GLOBAL

/-- Modelled from the spec: convenience conversion, a velocity transform
from GLOBAL to LOCAL. -/
noncomputable def LocalFromGlobalVelocity (sc : SphericalCoordinates)
    (v : Vector3) : Vector3 :=
  VelocityTransform sc v GLOBAL LOCAL

/-- The reference configuration of the spec's example scenarios: surface
EARTH_WGS84, latitude 0.3 rad, longitude -1.2 rad, elevation 354.1 m,
heading offset pi/2. -/
noncomputable def cfgRef : SphericalCoordinates :=
  { surfaceType := EARTH_WGS84
    latitudeReference := 0.3
    longitudeReference := -1.2
    elevationReference := 354.1
    headingOffset := Real.pi / 2 }

/-- Helpers.hh line 231: `NAN_I = std::numeric_limits<int>::quiet_NaN()`.
For an integer type the C++ standard's `quiet_NaN()` is the
value-initialized `int()`, which is 0. -/
def NAN_I : Int := 0

/-- Largest value of the C++ `int` type (32-bit on every platform this
library targets). -/
def INT_MAX : Int := 2147483647

/-- Smallest value of the C++ `int` type. -/
def INT_MIN : Int := -2147483648

/-- Whitespace characters skipped by `std::stoi`'s underlying `strtol`
(`isspace` in the default C locale): space, form feed, newline, carriage
return, horizontal tab, vertical tab. -/
def isSpaceChar (c : Char) : Bool :=
  c = ' ' || c = '\x0c' || c = '\n' || c = '\x0d' || c = '\t' || c = '\x0b'

/-- Numeric value accumulated from a run of decimal digits. -/
def digitsToNat (ds : List Char) : Nat :=
  ds.foldl (fun a c => a * 10 + (c.toNat - 48)) 0

/-- Model of `std::stoi(s)` in base 10: skip leading whitespace, consume an
optional single sign, then a non-empty run of decimal digits (trailing
characters are ignored).  Returns `none` where the C++ call throws:
`std::invalid_argument` when no digits can be consumed, `std::out_of_range`
when the converted value does not fit in `int`. -/
def stoi (s : String) : Option Int :=
  let cs := s.data.dropWhile isSpaceChar
  let signAndRest : Int × List Char :=
    match cs with
    | '+' :: r => (1, r)
    | '-' :: r => (-1, r)
    | r => (1, r)
  let ds := signAndRest.2.takeWhile Char.isDigit
  if ds.isEmpty then none
  else
    let n : Int := signAndRest.1 * (digitsToNat ds : Int)
    if n < INT_MIN ∨ INT_MAX < n then none else some n

/-- Helpers.hh lines 522-545: `parseInt`.  Returns `NAN_I` for the empty
string, 0 for a non-empty all-space string (`find_first_not_of(' ') ==
npos`), otherwise the result of `std::stoi`, with every exception mapped to
`NAN_I`. -/
def parseInt (s : String) : Int :=
  if s.data.isEmpty then NAN_I
  else if s.data.all (fun c => c = ' ') then 0
  else
    match stoi s with
    | some n => n
    | none => NAN_I

/-- Helpers.hh lines 337-344: `mean`.  The source accumulates the element
sum and returns `sum / _values.size()` with no guard for emptiness; the
division is undefined (division by zero) for an empty vector, which the
embedding makes explicit by returning `none` exactly in that case and the
exact quotient otherwise.  The element type is taken as an exact field. -/
def mean (l : List ℚ) : Option ℚ :=
  if l.length = 0 then none else some (l.sum / l.length)

/-- Helpers.hh lines 349-358: `variance`.  The source computes the mean,
accumulates the squared deviations `(v[i] - avg) * (v[i] - avg)`, and
returns `sum / _values.size()`, again with no emptiness guard; the embedded
division-by-zero case (empty vector, already hit inside `mean`) is
`none`. -/
def variance (l : List ℚ) : Option ℚ :=
  (mean l).map
    (fun avg => (l.map (fun v => (v - avg) * (v - avg))).sum / l.length)

/-- The convenience LOCAL-to-GLOBAL velocity conversion is exactly the
heading rotation. -/
theorem GlobalFromLocalVelocity_eq (sc : SphericalCoordinates)
    (v : Vector3) :
    GlobalFromLocalVelocity sc v = globalFromLocalRot sc.headingOffset v := by
  unfold GlobalFromLocalVelocity VelocityTransform velToGlobal velFromGlobal
  norm_num [LOCAL, GLOBAL, SPHERICAL, ECEF, VelPairDefined, isFrame]

/-- The convenience GLOBAL-to-LOCAL velocity conversion is exactly the
inverse heading rotation. -/
theorem LocalFromGlobalVelocity_eq (sc : SphericalCoordinates)
    (v : Vector3) :
    LocalFromGlobalVelocity sc v = localFromGlobalRot sc.headingOffset v := by
  unfold LocalFromGlobalVelocity VelocityTransform velToGlobal velFromGlobal
  norm_num [LOCAL, GLOBAL, SPHERICAL, ECEF, VelPairDefined, isFrame]

/-- The inverse heading rotation undoes the heading rotation exactly. -/
theorem localRot_globalRot (h : ℝ) (v : Vector3) :
    localFromGlobalRot h (globalFromLocalRot h v) = v := by
  cases v with
  | mk x y z =>
    unfold globalFromLocalRot localFromGlobalRot
    simp only [Vector3.mk.injEq]
    refine ⟨?_, ?_, trivial⟩
    · linear_combination x * Real.sin_sq_add_cos_sq h
    · linear_combination y * Real.sin_sq_add_cos_sq h

/-- C1: for every 3-vector and every (from, to) pair that is invalid for
the respective transform — a tag outside the four defined values, or a
pair with no defined conversion (for velocities this includes SPHERICAL
endpoints) — both PositionTransform and VelocityTransform return the input
vector unchanged; they are total functions and signal no error. -/
theorem transform_fallback (sc : SphericalCoordinates) (v : Vector3)
    (f t : CoordinateType) :
    (¬ PosPairDefined f t → PositionTransform sc v f t = v) ∧
    (¬ VelPairDefined f t → VelocityTransform sc v f t = v) := by
  constructor
  · intro h
    simp [PositionTransform, h]
  · intro h
    simp [VelocityTransform, h]

/-- Witness for C1: the concrete bad pair (5, 6) of the test suite, on the
default configuration and the test vector (1, 2, -4). -/
theorem transform_fallback_witness :
    ¬ PosPairDefined 5 6 ∧ ¬ VelPairDefined 5 6 ∧
    PositionTransform defaultSC ⟨1, 2, -4⟩ 5 6 = ⟨1, 2, -4⟩ ∧
    VelocityTransform defaultSC ⟨1, 2, -4⟩ 5 6 = ⟨1, 2, -4⟩ :=
  ⟨by decide, by decide,
   (transform_fallback defaultSC ⟨1, 2, -4⟩ 5 6).1 (by decide),
   (transform_fallback defaultSC ⟨1, 2, -4⟩ 5 6).2 (by decide)⟩

/-- C2: a velocity transform naming SPHERICAL as the from or the to frame
returns its input unchanged, for every other tag (valid or not) and every
vector. -/
theorem velocityTransform_spherical_identity (sc : SphericalCoordinates)
    (v : Vector3) (t : CoordinateType) :
    VelocityTransform sc v SPHERICAL t = v ∧
    VelocityTransform sc v t SPHERICAL = v := by
  unfold VelocityTransform
  constructor
  · split
    · rfl
    · rw [if_pos (Or.inl rfl)]
  · split
    · rfl
    · rw [if_pos (Or.inr rfl)]

/-- C3: for every configuration, every vector, and every frame tag F
(including tags with no other defined conversion), transforming from F to F
is the identity for both positions and velocities. -/
theorem transform_same_frame_identity (sc : SphericalCoordinates)
    (v : Vector3) (F : CoordinateType) :
    PositionTransform sc v F F = v ∧ VelocityTransform sc v F F = v := by
  constructor <;> simp [PositionTransform, VelocityTransform]

/-- C7: Surface() returns exactly the last value passed to SetSurface(),
for every integer value, including values outside the defined enumeration
such as 2; storage never fails and never normalizes the value. -/
theorem surface_stores_verbatim (sc : SphericalCoordinates)
    (s : SurfaceType) :
    Surface (SetSurface sc s) = s ∧ Surface (SetSurface sc 2) = 2 :=
  ⟨rfl, rfl⟩

/-- C8: Convert is total on strings and returns EARTH_WGS84 both for the
exact label "EARTH_WGS84" and for every other string. -/
theorem convert_always_earth_wgs84 (s : String) :
    Convert "EARTH_WGS84" = EARTH_WGS84 ∧ Convert s = EARTH_WGS84 := by
  refine ⟨rfl, ?_⟩
  unfold Convert
  split <;> rfl

/-- C5 counterexample: with the reference configuration (heading offset
pi/2), the local velocity (1, 0, 0) maps to East component 0 (local +X is
global North there), while the claim's general formula
East = -sin(h) * x_local + cos(h) * y_local evaluates to -1 at the same
input; so the formula clause of the claim is false at this input. -/
theorem globalFromLocal_east_formula_counterexample :
    ¬ ((GlobalFromLocalVelocity cfgRef ⟨1, 0, 0⟩).x =
        -Real.sin (Real.pi / 2) * 1 + Real.cos (Real.pi / 2) * 0) := by
  rw [GlobalFromLocalVelocity_eq]
  simp [globalFromLocalRot, cfgRef, Real.sin_pi_div_two,
    Real.cos_pi_div_two]

/-- C5 (amended): with the reference configuration (heading offset pi/2),
GlobalFromLocalVelocity maps a local velocity (x, y, z) to an
East-North-Up vector with North = x, East = -y and the vertical unchanged
(the model over the reals is exact, hence within the claimed 1e-6), and
LocalFromGlobalVelocity applied to that result returns (x, y, z) exactly;
in general East = cos(h) * x_local - sin(h) * y_local. -/
theorem globalFromLocalVelocity_heading90 :
    (∀ x y z : ℝ,
      (GlobalFromLocalVelocity cfgRef ⟨x, y, z⟩).y = x ∧
      (GlobalFromLocalVelocity cfgRef ⟨x, y, z⟩).x = -y ∧
      (GlobalFromLocalVelocity cfgRef ⟨x, y, z⟩).z = z ∧
      LocalFromGlobalVelocity cfgRef (GlobalFromLocalVelocity cfgRef
        ⟨x, y, z⟩) = ⟨x, y, z⟩) ∧
    (∀ (sc : SphericalCoordinates) (v : Vector3),
      (GlobalFromLocalVelocity sc v).x =
        Real.cos sc.headingOffset * v.x -
          Real.sin sc.headingOffset * v.y) := by
  constructor
  · intro x y z
    rw [GlobalFromLocalVelocity_eq, LocalFromGlobalVelocity_eq,
      localRot_globalRot]
    have hh : cfgRef.headingOffset = Real.pi / 2 := rfl
    refine ⟨?_, ?_, rfl, rfl⟩
    · show Real.sin cfgRef.headingOffset * x +
        Real.cos cfgRef.headingOffset * y = x
      rw [hh, Real.sin_pi_div_two, Real.cos_pi_div_two]
      ring
    · show Real.cos cfgRef.headingOffset * x -
        Real.sin cfgRef.headingOffset * y = -y
      rw [hh, Real.sin_pi_div_two, Real.cos_pi_div_two]
      ring
  · intro sc v
    rw [GlobalFromLocalVelocity_eq]
    rfl

/-- C9: NAN_I is the value-initialized int, 0; parseInt maps the
successfully parsed string "0" to 0, the empty string to 0, every all-space
string to 0, and every input std::stoi rejects to 0, so a parse failure is
indistinguishable from a successful parse of zero at the integer
interface. -/
theorem parseInt_failure_indistinguishable_from_zero :
    NAN_I = 0 ∧ stoi "0" = some 0 ∧ parseInt "0" = 0 ∧ parseInt "" = 0 ∧
    (∀ s : String, s.data.all (fun c => c = ' ') → parseInt s = 0) ∧
    (∀ s : String, stoi s = none → parseInt s = 0) := by
  refine ⟨rfl, by decide, by decide, rfl, ?_, ?_⟩
  · intro s h
    simp [parseInt, h, NAN_I]
  · intro s h
    simp [parseInt, h, NAN_I]

/-- Witness for C9: the unparseable string "abc" and the all-space string
of three blanks both parse to 0. -/
theorem parseInt_failure_witness :
    stoi "abc" = none ∧ parseInt "abc" = 0 ∧
    ("   " : String).data.all (fun c => c = ' ') = true ∧
    parseInt "   " = 0 :=
  ⟨by decide,
   parseInt_failure_indistinguishable_from_zero.2.2.2.2.2 "abc" (by decide),
   by decide,
   parseInt_failure_indistinguishable_from_zero.2.2.2.2.1 "   " (by decide)⟩

/-- Squared deviations expand into the moment form; list-induction
lemma backing the variance identity. -/
theorem sum_sq_dev (l : List ℚ) (m : ℚ) :
    (l.map (fun v => (v - m) * (v - m))).sum =
      (l.map (fun v => v * v)).sum - 2 * m * l.sum +
        l.length * (m * m) := by
  induction l with
  | nil => simp
  | cons a t ih =>
    simp only [List.map_cons, List.sum_cons, List.length_cons, ih]
    push_cast
    ring

/-- C10: mean and variance divide by the element count with no emptiness
guard: on the empty vector both hit the division-by-zero branch (embedded
as none), and on every non-empty vector the divisor is nonzero and the
results are the arithmetic mean and the population variance (also in
moment form). -/
theorem mean_variance_no_guard (l : List ℚ) (h : l ≠ []) :
    (l.length : ℚ) ≠ 0 ∧
    mean l = some (l.sum / l.length) ∧
    variance l =
      some ((l.map (fun v => (v - l.sum / l.length) *
        (v - l.sum / l.length))).sum / l.length) ∧
    variance l =
      some ((l.map (fun v => v * v)).sum / l.length -
        (l.sum / l.length) * (l.sum / l.length)) ∧
    mean ([] : List ℚ) = none ∧ variance ([] : List ℚ) = none := by
  have hlen : l.length ≠ 0 := fun hl => h (List.length_eq_zero.mp hl)
  have hq : (l.length : ℚ) ≠ 0 := Nat.cast_ne_zero.mpr hlen
  refine ⟨hq, ?_, ?_, ?_, rfl, rfl⟩
  · unfold mean
    rw [if_neg hlen]
  · unfold variance mean
    rw [if_neg hlen]
    rfl
  · unfold variance mean
    rw [if_neg hlen]
    rw [Option.map_some']
    rw [sum_sq_dev l (l.sum / l.length)]
    congr 1
    field_simp
    ring

/-- Witness for C10: the vector (1, 2, 3) has mean 2 and population
variance 2/3. -/
theorem mean_variance_no_guard_witness :
    ([1, 2, 3] : List ℚ) ≠ [] ∧ mean [1, 2, 3] = some 2 ∧
    variance [1, 2, 3] = some (2 / 3) := by
  refine ⟨by decide, ?_, ?_⟩
  · rw [(mean_variance_no_guard [1, 2, 3] (by decide)).2.1]
    norm_num
  · rw [(mean_variance_no_guard [1, 2, 3] (by decide)).2.2.2.1]
    norm_num

end IgnMath
